import Mathlib

/-!
Shallow embedding of `src/server.js` (mcp-reports-server): the request
validation and translation layer of an MCP server that forwards tool calls
to a remote pentest-reports REST API.

Modelling conventions:
* Loosely-typed JS arguments become `Option`-typed fields; an absent
  (`undefined`) argument is `none`.  JS truthiness on optional strings is
  `truthy` below (`undefined` and `""` are falsy).
* String-typed fields are modelled as `Option String`; the JS
  `typeof x !== 'string'` guards are vacuous on that domain.  The one field
  whose claims depend on the runtime type test, `cvssScore`, is modelled as
  `JsScalar` so that a non-number supplied value is representable.
* JS numbers are modelled as `ℚ`; the comparisons `< 0` / `> 10` on the
  concrete literals involved agree with IEEE double comparison.
* Each tool operation is split into the pure pre-dispatch phase
  (`...Request : ... → Except McpError Request`), which performs
  credential resolution, validation and payload construction and either
  raises an `McpError` or yields the HTTP request that would be issued,
  and the response phase (`dispatchResult`), which maps the axios outcome
  (response with some status / no response / setup failure) to the
  returned envelope or thrown error.  axios resolves only on a 2xx status
  (its default `validateStatus`) and otherwise rejects with
  `error.response` carrying the status, which is how `is2xx` enters.
-/

namespace ReportsServer

/-- JS truthiness of an optional string argument: `undefined` and `""` are
falsy, every other string is truthy. -/
def truthy : Option String → Bool
  | none => false
  | some s => !(s == "")

/-- Character class of the id pattern `[0-9a-fA-F]`. -/
def isHexDigit (c : Char) : Bool :=
  (decide ('0' ≤ c) && decide (c ≤ '9')) ||
  (decide ('a' ≤ c) && decide (c ≤ 'f')) ||
  (decide ('A' ≤ c) && decide (c ≤ 'F'))

/-- The MongoDB ObjectId test `^[0-9a-fA-F]{24}$` used on every report and
vulnerability identifier. -/
def isValidObjectId (s : String) : Bool :=
  s.length == 24 && s.data.all isHexDigit

/-- The compound id guard as written in the source:
`!id || !id.match(/^[0-9a-fA-F]{24}$/)` negated. -/
def checkObjectId (s : String) : Bool :=
  (!(s == "")) && isValidObjectId s

/-- Error codes of `McpError` used by the server. -/
inductive ErrCode
  | invalidParams
  | internalError
  | methodNotFound
deriving DecidableEq, Repr

/-- An `McpError` as thrown by the server: a code and a message. -/
structure McpError where
  code : ErrCode
  message : String
deriving DecidableEq, Repr

/-- Model of `getBearerToken(providedToken)`: a truthy per-call token wins, else a
truthy `REPORTS_JWT_TOKEN` environment value, else an invalid-params
error.  The environment token is threaded as the second argument. -/
def getBearerToken (providedToken jwtToken : Option String) : Except McpError String :=
  if truthy providedToken then .ok (providedToken.getD "")
  else if truthy jwtToken then .ok (jwtToken.getD "")
  else .error ⟨.invalidParams,
    "No bearer token provided. Either pass bearerToken parameter or set REPORTS_JWT_TOKEN environment variable."⟩

/-- Endpoint constants from the configuration block. -/
def API_BASE_URL : String := "http://10.10.10.117:3000/api"

/-- Reports endpoint. -/
def REPORTS_ENDPOINT : String := API_BASE_URL ++ "/report"

/-- Vulnerability endpoint. -/
def VULNERABILITY_ENDPOINT : String := API_BASE_URL ++ "/vulnerability"

/-- Membership of a character in a character list, written out so that the
append law is a two-line induction (models JS `String.includes` for a
single-character needle). -/
def listHas (c : Char) : List Char → Bool
  | [] => false
  | a :: rest => a == c || listHas c rest

/-- JS `s.includes(c)` for a single character. -/
def includesChar (s : String) (c : Char) : Bool :=
  listHas c s.data

/-- The `fieldType` parameter of `formatAsHTML`. -/
inductive FieldType
  | paragraph
  | list
deriving DecidableEq, Repr

/-- The list-separator class of `content.split(/\n|;|,|\|/)`. -/
def isSep (c : Char) : Bool :=
  c == '\n' || c == ';' || c == ',' || c == '|'

/-- Whitespace trimmed by JS `String.trim` (the characters that occur in
this code base's inputs). -/
def isJsWs (c : Char) : Bool :=
  c == ' ' || c == '\t' || c == '\n' || c == '\r' || c == '\x0b' || c == '\x0c'

/-- Trim leading and trailing whitespace from a character list. -/
def trimChars (l : List Char) : List Char :=
  ((l.dropWhile isJsWs).reverse.dropWhile isJsWs).reverse

/-- JS `s.trim()`. -/
def jsTrim (s : String) : String :=
  String.mk (trimChars s.data)

/-- JS `s.startsWith(pre)`. -/
def jsStartsWith (s pre : String) : Bool :=
  pre.data.isPrefixOf s.data

/-- Split a character list on separator characters, keeping empty
segments, exactly as the JS `split` does. -/
def splitSeps : List Char → List (List Char)
  | [] => [[]]
  | c :: rest =>
    let r := splitSeps rest
    if isSep c then [] :: r
    else
      match r with
      | [] => [[c]]
      | seg :: segs => (c :: seg) :: segs

/-- The segments of list-kind formatting:
`content.split(...).map(trim).filter(truthy)`. -/
def listItems (content : String) : List String :=
  (((splitSeps content.data).map (fun l => jsTrim (String.mk l))).filter (fun s => !(s == "")))

/-- Model of `formatAsHTML(content, fieldType)` for string content.  The JS guard
`!content || typeof content !== 'string'` degenerates, on strings, to the
empty-string test; the HTML short-circuit checks for both `<` and `>`. -/
def formatAsHTML (content : String) (fieldType : FieldType) : String :=
  if content = "" then content
  else if includesChar content '<' && includesChar content '>' then content
  else
    match fieldType with
    | .list =>
      let items := listItems content
      if items.length > 1 then
        "<ul>" ++ String.join (items.map (fun item => "<li>" ++ item ++ "</li>")) ++ "</ul>"
      else "<p>" ++ content ++ "</p>"
    | .paragraph => "<p>" ++ content ++ "</p>"

/-- A supplied JS scalar value, keeping just enough type information for
the `typeof x !== 'number'` guard on `cvssScore`. -/
inductive JsScalar
  | num (q : ℚ)
  | str (s : String)
  | other
deriving DecidableEq

/-- The `cvssScore` guard: negation of
`typeof x !== 'number' || x < 0 || x > 10`. -/
def cvssScoreOk : JsScalar → Bool
  | .num q => decide (0 ≤ q) && decide (q ≤ 10)
  | _ => false

/-- Valid report statuses. -/
def validStatuses : List String :=
  ["Draft", "In Progress", "Submitted", "Reviewed", "Closed"]

/-- Valid vulnerability severities. -/
def validSeverities : List String :=
  ["Informational", "Low", "Medium", "High", "Critical"]

/-- Payload of `create_report` after defaulting. -/
structure ReportPayload where
  title : String
  platform : String
  templateId : String
  testers : List String
deriving DecidableEq, Repr

/-- The raw `reportData` handed to `createReport` by the router. -/
structure CreateReportArgsData where
  title : Option String := none
  platform : Option String := none
  templateId : Option String := none
  testers : Option (List String) := none
deriving DecidableEq, Repr

/-- JS `x || dflt` for an optional string: falsy (`undefined` or `""`)
falls back to the default. -/
def jsOrDefault (v : Option String) (dflt : String) : String :=
  match v with
  | some s => if s = "" then dflt else s
  | none => dflt

/-- The payload construction of `createReport`: always exactly the four
fields, with `||`-defaulting on each. -/
def buildReportPayload (reportData : CreateReportArgsData) : ReportPayload :=
  { title := jsOrDefault reportData.title ""
    platform := jsOrDefault reportData.platform ""
    templateId := jsOrDefault reportData.templateId "67b1dac12c8d23272ad47cbd"
    testers := reportData.testers.getD [] }

/-- Nested `summary` object accumulated by the `update_report` router
case. -/
structure ReportSummary where
  description : Option String := none
  keyFindings : Option String := none
deriving DecidableEq, Repr

/-- The partial-update body built by the `update_report` router case; a
`none` field is absent from the outgoing JSON. -/
structure ReportUpdateData where
  title : Option String := none
  platform : Option String := none
  goal : Option String := none
  scope : Option String := none
  recommendations : Option String := none
  status : Option String := none
  summary : Option ReportSummary := none
deriving DecidableEq, Repr

/-- The emptiness test `Object.keys(reportUpdateData).length === 0`. -/
def ReportUpdateData.isEmptyUpdate (d : ReportUpdateData) : Bool :=
  d.title.isNone && d.platform.isNone && d.goal.isNone && d.scope.isNone &&
    d.recommendations.isNone && d.status.isNone && d.summary.isNone

/-- One element of the `vulnerabilities` batch (also the body shape of a
vulnerability update, minus `taskId`). -/
structure VulnInput where
  title : Option String := none
  description : Option String := none
  details : Option String := none
  impact : Option String := none
  remediation : Option String := none
  cvss : Option String := none
  cvssScore : Option JsScalar := none
  severity : Option String := none
deriving DecidableEq

/-- The partial-update body built by the `update_vulnerability` router
case. -/
structure VulnUpdateData where
  title : Option String := none
  description : Option String := none
  details : Option String := none
  impact : Option String := none
  remediation : Option String := none
  cvss : Option String := none
  cvssScore : Option JsScalar := none
  severity : Option String := none
  taskId : Option String := none
deriving DecidableEq

/-- The emptiness test `Object.keys(updateData).length === 0` for the vulnerability update. -/
def VulnUpdateData.isEmptyUpdate (d : VulnUpdateData) : Bool :=
  d.title.isNone && d.description.isNone && d.details.isNone && d.impact.isNone &&
    d.remediation.isNone && d.cvss.isNone && d.cvssScore.isNone && d.severity.isNone &&
    d.taskId.isNone

/-- Bodies of the outgoing HTTP requests. -/
inductive RequestBody
  | empty
  | report (p : ReportPayload)
  | reportUpdate (d : ReportUpdateData)
  | vulnUpdate (d : VulnUpdateData)
  | vulns (l : List VulnInput)
deriving DecidableEq

/-- An HTTP request as configured through axios: verb, URL, body, the two
headers, and the per-call timeout in milliseconds. -/
structure Request where
  method : String
  url : String
  body : RequestBody
  authorization : String
  contentType : String
  timeout : Nat
deriving DecidableEq

/-- Model of `getAllReports` up to the axios call: GET `/report`, 10 s timeout. -/
def getAllReportsRequest (tok jwt : Option String) : Except McpError Request :=
  match getBearerToken tok jwt with
  | .error e => .error e
  | .ok bearerToken =>
    .ok { method := "GET", url := REPORTS_ENDPOINT, body := .empty
          authorization := "Bearer " ++ bearerToken
          contentType := "application/json", timeout := 10000 }

/-- Model of `getReport` up to the axios call: id validation then GET
`/report/:id`, 10 s timeout. -/
def getReportRequest (tok jwt : Option String) (reportId : String) : Except McpError Request :=
  match getBearerToken tok jwt with
  | .error e => .error e
  | .ok bearerToken =>
    if checkObjectId reportId = false then
      .error ⟨.invalidParams, "Invalid reportId format. Must be a valid MongoDB ObjectId (24 characters)"⟩
    else
      .ok { method := "GET", url := REPORTS_ENDPOINT ++ "/" ++ reportId, body := .empty
            authorization := "Bearer " ++ bearerToken
            contentType := "application/json", timeout := 10000 }

/-- Model of `createReport` up to the axios call: payload defaulting then POST
`/report`, 10 s timeout (as written in the source). -/
def createReportRequest (tok jwt : Option String) (reportData : CreateReportArgsData) :
    Except McpError Request :=
  match getBearerToken tok jwt with
  | .error e => .error e
  | .ok bearerToken =>
    .ok { method := "POST", url := REPORTS_ENDPOINT
          body := .report (buildReportPayload reportData)
          authorization := "Bearer " ++ bearerToken
          contentType := "application/json", timeout := 10000 }

/-- Model of `updateReport` up to the axios call: id validation, status enum
validation when present, then PUT `/report/:id`, 15 s timeout. -/
def updateReportRequest (tok jwt : Option String) (reportId : String)
    (reportData : ReportUpdateData) : Except McpError Request :=
  match getBearerToken tok jwt with
  | .error e => .error e
  | .ok bearerToken =>
    if checkObjectId reportId = false then
      .error ⟨.invalidParams, "Invalid reportId format. Must be a valid MongoDB ObjectId (24 characters)"⟩
    else
      match reportData.status with
      | some st =>
        if validStatuses.contains st = false then
          .error ⟨.invalidParams, "Status must be one of: Draft, In Progress, Submitted, Reviewed, Closed"⟩
        else
          .ok { method := "PUT", url := REPORTS_ENDPOINT ++ "/" ++ reportId
                body := .reportUpdate reportData
                authorization := "Bearer " ++ bearerToken
                contentType := "application/json", timeout := 15000 }
      | none =>
        .ok { method := "PUT", url := REPORTS_ENDPOINT ++ "/" ++ reportId
              body := .reportUpdate reportData
              authorization := "Bearer " ++ bearerToken
              contentType := "application/json", timeout := 15000 }

/-- Model of `getVulnerability` up to the axios call: GET `/vulnerability/:id`,
10 s timeout. -/
def getVulnerabilityRequest (tok jwt : Option String) (vulnerabilityId : String) :
    Except McpError Request :=
  match getBearerToken tok jwt with
  | .error e => .error e
  | .ok bearerToken =>
    if checkObjectId vulnerabilityId = false then
      .error ⟨.invalidParams, "Invalid vulnerabilityId format. Must be a valid MongoDB ObjectId (24 characters)"⟩
    else
      .ok { method := "GET", url := VULNERABILITY_ENDPOINT ++ "/" ++ vulnerabilityId, body := .empty
            authorization := "Bearer " ++ bearerToken
            contentType := "application/json", timeout := 10000 }

/-- Model of `getVulnerabilities` up to the axios call: GET
`/vulnerability/report/:id`, 10 s timeout. -/
def getVulnerabilitiesRequest (tok jwt : Option String) (reportId : String) :
    Except McpError Request :=
  match getBearerToken tok jwt with
  | .error e => .error e
  | .ok bearerToken =>
    if checkObjectId reportId = false then
      .error ⟨.invalidParams, "Invalid reportId format. Must be a valid MongoDB ObjectId (24 characters)"⟩
    else
      .ok { method := "GET", url := VULNERABILITY_ENDPOINT ++ "/report/" ++ reportId, body := .empty
            authorization := "Bearer " ++ bearerToken
            contentType := "application/json", timeout := 10000 }

/-- Model of `deleteVulnerability` up to the axios call: DELETE
`/vulnerability/:id`, 10 s timeout. -/
def deleteVulnerabilityRequest (tok jwt : Option String) (vulnerabilityId : String) :
    Except McpError Request :=
  match getBearerToken tok jwt with
  | .error e => .error e
  | .ok bearerToken =>
    if checkObjectId vulnerabilityId = false then
      .error ⟨.invalidParams, "Invalid vulnerabilityId format. Must be a valid MongoDB ObjectId (24 characters)"⟩
    else
      .ok { method := "DELETE", url := VULNERABILITY_ENDPOINT ++ "/" ++ vulnerabilityId, body := .empty
            authorization := "Bearer " ++ bearerToken
            contentType := "application/json", timeout := 10000 }

/-- The `vuln.cvssScore !== undefined` guard followed by the range test:
true when the field is absent or in range. -/
def cvssScoreCheck : Option JsScalar → Bool
  | some x => cvssScoreOk x
  | none => true

/-- The `vuln.severity !== undefined` guard followed by the enum test. -/
def severityCheck : Option String → Bool
  | some sev => validSeverities.contains sev
  | none => true

/-- The `vuln.cvss !== undefined` guard followed by the prefix-of-vector
test. -/
def cvssCheck : Option String → Bool
  | some cv => jsStartsWith cv "CVSS:3.1/"
  | none => true

/-- Model of `updateVulnerability` up to the axios call: id validation, then the
three field validations (`cvssScore`, `severity`, `cvss`), then PUT
`/vulnerability/:id`, 15 s timeout. -/
def updateVulnerabilityRequest (tok jwt : Option String) (vulnerabilityId : String)
    (d : VulnUpdateData) : Except McpError Request :=
  match getBearerToken tok jwt with
  | .error e => .error e
  | .ok bearerToken =>
    if checkObjectId vulnerabilityId = false then
      .error ⟨.invalidParams, "Invalid vulnerabilityId format. Must be a valid MongoDB ObjectId (24 characters)"⟩
    else if cvssScoreCheck d.cvssScore = false then
      .error ⟨.invalidParams, "CVSS Score must be a number between 0.0 and 10.0"⟩
    else if severityCheck d.severity = false then
      .error ⟨.invalidParams, "Severity must be one of: Informational, Low, Medium, High, Critical"⟩
    else if cvssCheck d.cvss = false then
      .error ⟨.invalidParams, "CVSS vector must be a valid CVSS 3.1 string starting with \"CVSS:3.1/\""⟩
    else
      .ok { method := "PUT", url := VULNERABILITY_ENDPOINT ++ "/" ++ vulnerabilityId
            body := .vulnUpdate d
            authorization := "Bearer " ++ bearerToken
            contentType := "application/json", timeout := 15000 }

/-- The HTML auto-formatting applied to one batch element once its title
and description checks have passed: `description` unconditionally,
`details`/`impact`/`remediation` behind their truthiness guards. -/
def formatVulnFields (v : VulnInput) : VulnInput :=
  { v with
    description := v.description.map (fun s => formatAsHTML s .paragraph)
    details := v.details.map (fun s => if s = "" then s else formatAsHTML s .paragraph)
    impact := v.impact.map (fun s => if s = "" then s else formatAsHTML s .list)
    remediation := v.remediation.map (fun s => if s = "" then s else formatAsHTML s .list) }

/-- The per-element body of the `createVulnerabilities` validation loop:
title and description presence, HTML formatting, then the `cvssScore`,
`severity` and `cvss` checks, in source order. -/
def validateAndFormatVuln (v : VulnInput) : Except McpError VulnInput :=
  if truthy v.title = false then
    .error ⟨.invalidParams, "Each vulnerability must have a title (string)"⟩
  else if truthy v.description = false then
    .error ⟨.invalidParams, "Each vulnerability must have a description (HTML string)"⟩
  else
    let w := formatVulnFields v
    if cvssScoreCheck w.cvssScore = false then
      .error ⟨.invalidParams, "CVSS Score must be a number between 0.0 and 10.0"⟩
    else if severityCheck w.severity = false then
      .error ⟨.invalidParams, "Severity must be one of: Informational, Low, Medium, High, Critical"⟩
    else if cvssCheck w.cvss = false then
      .error ⟨.invalidParams, "CVSS vector must be a valid CVSS 3.1 string starting with \"CVSS:3.1/\""⟩
    else .ok w

/-- The `for (const vuln of vulnerabilities)` loop: fail-fast left to
right, collecting the formatted elements. -/
def validateAndFormatVulns : List VulnInput → Except McpError (List VulnInput)
  | [] => .ok []
  | v :: rest =>
    match validateAndFormatVuln v with
    | .error e => .error e
    | .ok w =>
      match validateAndFormatVulns rest with
      | .error e => .error e
      | .ok ws => .ok (w :: ws)

/-- The `vulnerabilities` argument as a JS value: an array, or a single
(non-array) object. -/
inductive VulnArg
  | arr (l : List VulnInput)
  | single (v : VulnInput)
deriving DecidableEq

/-- The `Array.isArray` coercion inside `createVulnerabilities`:
a non-array is wrapped into a one-element array. -/
def VulnArg.toList : VulnArg → List VulnInput
  | .arr l => l
  | .single v => [v]

/-- Model of `createVulnerabilities` up to the axios call: id validation, array
coercion, per-element validation and formatting, then POST
`/vulnerability/:reportId` with the batch, 15 s timeout. -/
def createVulnerabilitiesRequest (tok jwt : Option String) (reportId : String)
    (vulnerabilities : VulnArg) : Except McpError Request :=
  match getBearerToken tok jwt with
  | .error e => .error e
  | .ok bearerToken =>
    if checkObjectId reportId = false then
      .error ⟨.invalidParams, "Invalid reportId format. Must be a valid MongoDB ObjectId (24 characters)"⟩
    else
      match validateAndFormatVulns vulnerabilities.toList with
      | .error e => .error e
      | .ok vulns =>
        .ok { method := "POST", url := VULNERABILITY_ENDPOINT ++ "/" ++ reportId
              body := .vulns vulns
              authorization := "Bearer " ++ bearerToken
              contentType := "application/json", timeout := 15000 }

/-- Arguments of the `update_report` tool call. -/
structure UpdateReportArgs where
  bearerToken : Option String := none
  reportId : Option String := none
  title : Option String := none
  platform : Option String := none
  goal : Option String := none
  scope : Option String := none
  summaryDescription : Option String := none
  summaryKeyFindings : Option String := none
  recommendations : Option String := none
  status : Option String := none
deriving DecidableEq, Repr

/-- The `update_report` router case's payload construction: only supplied
fields are copied, HTML fields are formatted, and the two summary fields
are accumulated into a nested object when at least one is present. -/
def buildReportUpdateData (args : UpdateReportArgs) : ReportUpdateData :=
  { title := args.title
    platform := args.platform
    goal := args.goal.map (fun s => formatAsHTML s .paragraph)
    scope := args.scope.map (fun s => formatAsHTML s .paragraph)
    recommendations := args.recommendations.map (fun s => formatAsHTML s .list)
    status := args.status
    summary :=
      if args.summaryDescription.isSome || args.summaryKeyFindings.isSome then
        some { description := args.summaryDescription.map (fun s => formatAsHTML s .paragraph)
               keyFindings := args.summaryKeyFindings.map (fun s => formatAsHTML s .list) }
      else none }

/-- The `update_report` router case: required-id check, payload
construction, the nothing-to-update guard, then `updateReport`. -/
def handleUpdateReport (jwt : Option String) (args : UpdateReportArgs) :
    Except McpError Request :=
  if truthy args.reportId = false then
    .error ⟨.invalidParams, "Report ID is required"⟩
  else
    let reportUpdateData := buildReportUpdateData args
    if reportUpdateData.isEmptyUpdate then
      .error ⟨.invalidParams, "At least one field must be provided to update"⟩
    else
      updateReportRequest args.bearerToken jwt (args.reportId.getD "") reportUpdateData

/-- Arguments of the `create_vulnerabilities` tool call. -/
structure CreateVulnsArgs where
  bearerToken : Option String := none
  reportId : Option String := none
  vulnerabilities : Option VulnArg := none
deriving DecidableEq

/-- The `create_vulnerabilities` router case: required-id check, then the
`!args.vulnerabilities || !Array.isArray(args.vulnerabilities) ||
args.vulnerabilities.length === 0` guard, then `createVulnerabilities`. -/
def handleCreateVulnerabilities (jwt : Option String) (args : CreateVulnsArgs) :
    Except McpError Request :=
  if truthy args.reportId = false then
    .error ⟨.invalidParams, "Report ID is required"⟩
  else
    match args.vulnerabilities with
    | some (.arr l) =>
      if l.isEmpty then
        .error ⟨.invalidParams, "At least one vulnerability is required"⟩
      else
        createVulnerabilitiesRequest args.bearerToken jwt (args.reportId.getD "") (.arr l)
    | some (.single _) =>
      .error ⟨.invalidParams, "At least one vulnerability is required"⟩
    | none =>
      .error ⟨.invalidParams, "At least one vulnerability is required"⟩

/-- Outcome of the axios call: a response with some status and data (axios
resolves on 2xx and rejects with `error.response` otherwise), no response
at all (`error.request`: network failure or timeout), or a request-setup
failure. -/
inductive AxiosOutcome
  | response (status : Nat) (data : String)
  | noResponse
  | setupError (msg : String)
deriving DecidableEq

/-- axios's default `validateStatus`: 200 ≤ status < 300. -/
def is2xx (status : Nat) : Bool :=
  decide (200 ≤ status) && decide (status < 300)

/-- The JSON envelope placed into the tool result text. -/
structure Envelope where
  success : Bool
  status : Nat
  data : Option String
  error : Option String
  timestamp : String
  message : Option String
deriving DecidableEq

/-- The shared try/catch shape of every operation's dispatch: a 2xx
response yields the success envelope with the operation message; any
other status yields the `success:false` envelope (returned, not thrown);
no response throws an internal error naming the endpoint; a setup failure
throws an internal error naming the cause. -/
def dispatchResult (endpoint successMsg now : String) :
    AxiosOutcome → Except McpError Envelope
  | .response status data =>
    if is2xx status then
      .ok { success := true, status := status, data := some data, error := none
            timestamp := now, message := some successMsg }
    else
      .ok { success := false, status := status, data := none, error := some data
            timestamp := now, message := none }
  | .noResponse =>
    .error ⟨.internalError, "Network error: Unable to reach the API at " ++ endpoint⟩
  | .setupError msg =>
    .error ⟨.internalError, "Request setup error: " ++ msg⟩

/-- The response phase of `getReport`. -/
def getReportResult (reportId now : String) (outcome : AxiosOutcome) :
    Except McpError Envelope :=
  dispatchResult (REPORTS_ENDPOINT ++ "/" ++ reportId) ("Retrieved report " ++ reportId)
    now outcome

end ReportsServer

namespace ReportsServer

/-! ### Helper lemmas -/

theorem listHas_append (c : Char) (l₁ l₂ : List Char) :
    listHas c (l₁ ++ l₂) = (listHas c l₁ || listHas c l₂) := by
  induction l₁ with
  | nil => simp [listHas]
  | cons a rest ih => simp [listHas, ih, Bool.or_assoc]

theorem valid_ne_empty {s : String} (h : isValidObjectId s = true) : s ≠ "" := by
  intro he
  rw [he] at h
  exact absurd h (by decide)

theorem checkObjectId_true {s : String} (h : isValidObjectId s = true) :
    checkObjectId s = true := by
  have hne := valid_ne_empty h
  simp [checkObjectId, h, hne]

theorem checkObjectId_false {s : String} (h : isValidObjectId s = false) :
    checkObjectId s = false := by
  simp [checkObjectId, h]

theorem truthy_some_empty : truthy (some "") = false := rfl

theorem bearer_cases (tok jwt : Option String) :
    (∃ e, getBearerToken tok jwt = .error e ∧ e.code = .invalidParams) ∨
    (∃ b, getBearerToken tok jwt = .ok b) := by
  by_cases h1 : truthy tok = true
  · exact .inr ⟨tok.getD "", by simp [getBearerToken, h1]⟩
  · by_cases h2 : truthy jwt = true
    · exact .inr ⟨jwt.getD "", by simp [getBearerToken, h1, h2]⟩
    · exact .inl ⟨⟨.invalidParams,
        "No bearer token provided. Either pass bearerToken parameter or set REPORTS_JWT_TOKEN environment variable."⟩,
        by simp [getBearerToken, h1, h2], rfl⟩

theorem wrap_ne_empty (s : String) : ("<p>" ++ s ++ "</p>") ≠ "" := by
  intro h
  have hd : '<' :: 'p' :: '>' :: (s.data ++ "</p>".data) = ([] : List Char) :=
    congrArg String.data h
  exact List.noConfusion hd

theorem includes_wrap_lt (s : String) : includesChar ("<p>" ++ s ++ "</p>") '<' = true := rfl

theorem includes_wrap_gt (s : String) : includesChar ("<p>" ++ s ++ "</p>") '>' = true := rfl

/-! ### Claim theorems -/

/-- Claim C4: for every operation, an upstream response with a non-success
status is returned as a success-shaped local result carrying the envelope
with success false, the status, the error data and a timestamp, a 2xx
response is returned as the success envelope, and when no response is
received at all the call instead throws an internal error whose message
names the unreachable endpoint (instantiated at `getReport`, whose
endpoint is the reports endpoint extended with the report id). -/
theorem C4_error_envelope (endpoint successMsg now data reportId : String) (status : Nat) :
    (is2xx status = false →
      dispatchResult endpoint successMsg now (.response status data) =
        .ok { success := false, status := status, data := none, error := some data
              timestamp := now, message := none }) ∧
    (is2xx status = true →
      dispatchResult endpoint successMsg now (.response status data) =
        .ok { success := true, status := status, data := some data, error := none
              timestamp := now, message := some successMsg }) ∧
    dispatchResult endpoint successMsg now .noResponse =
      .error ⟨.internalError, "Network error: Unable to reach the API at " ++ endpoint⟩ ∧
    getReportResult reportId now .noResponse =
      .error ⟨.internalError,
        "Network error: Unable to reach the API at " ++ (REPORTS_ENDPOINT ++ "/" ++ reportId)⟩ := by
  refine ⟨fun h => ?_, fun h => ?_, rfl, rfl⟩
  · simp [dispatchResult, h]
  · simp [dispatchResult, h]

/-- Witness for C4: a simulated 404 yields the returned failure envelope
and a simulated 200 the success envelope, at concrete inputs. -/
theorem C4_error_envelope_witness :
    dispatchResult "ep" "msg" "now" (.response 404 "nf") =
      .ok { success := false, status := 404, data := none, error := some "nf"
            timestamp := "now", message := none } ∧
    dispatchResult "ep" "msg" "now" (.response 200 "okdata") =
      .ok { success := true, status := 200, data := some "okdata", error := none
            timestamp := "now", message := some "msg" } :=
  ⟨(C4_error_envelope "ep" "msg" "now" "nf" "r" 404).1 (by decide),
   (C4_error_envelope "ep" "msg" "now" "okdata" "r" 200).2.1 (by decide)⟩

/-- Claim C7 counterexample: the empty string contains neither marker
character, yet paragraph formatting passes it through unchanged instead
of wrapping it in paragraph tags, because the JS falsiness guard fires
first. -/
theorem C7_empty_string_counterexample :
    includesChar "" '<' = false ∧ includesChar "" '>' = false ∧
    formatAsHTML "" .paragraph = "" ∧
    formatAsHTML "" .paragraph ≠ "<p>" ++ "" ++ "</p>" := by
  refine ⟨rfl, rfl, rfl, ?_⟩
  decide

/-- Claim C7 (amended: for non-empty strings): for every non-empty string
containing neither marker character, paragraph formatting wraps it in
paragraph tags, and re-applying paragraph formatting to that output is the
identity because the output contains both marker characters. -/
theorem C7_paragraph_wrap_idempotent (s : String) (hne : s ≠ "")
    (hlt : includesChar s '<' = false) :
    formatAsHTML s .paragraph = "<p>" ++ s ++ "</p>" ∧
    formatAsHTML (formatAsHTML s .paragraph) .paragraph = formatAsHTML s .paragraph := by
  have h1 : formatAsHTML s .paragraph = "<p>" ++ s ++ "</p>" := by
    simp [formatAsHTML, hne, hlt]
  refine ⟨h1, ?_⟩
  rw [h1]
  simp [formatAsHTML, wrap_ne_empty s, includes_wrap_lt s, includes_wrap_gt s]

/-- Witness for C7: the amended statement evaluated at the string
"hello". -/
theorem C7_paragraph_wrap_witness :
    formatAsHTML "hello" .paragraph = "<p>hello</p>" ∧
    formatAsHTML (formatAsHTML "hello" .paragraph) .paragraph = formatAsHTML "hello" .paragraph :=
  ⟨(C7_paragraph_wrap_idempotent "hello" (by decide) rfl).1,
   (C7_paragraph_wrap_idempotent "hello" (by decide) rfl).2⟩

/-- Claim C9: an explicitly supplied empty-string bearer token resolves
exactly like an absent one: it falls back to the environment token; the
no-credential parameter error is raised precisely when the environment
token is also absent (or itself empty, the JS-falsy degenerate); a truthy
environment token is returned, so the empty per-call token never becomes
the Authorization value. -/
theorem C9_empty_token_falls_back (jwt : Option String) :
    getBearerToken (some "") jwt = getBearerToken none jwt ∧
    (truthy jwt = false →
      ∃ e, getBearerToken (some "") jwt = .error e ∧ e.code = .invalidParams) ∧
    (∀ t, jwt = some t → t ≠ "" → getBearerToken (some "") jwt = .ok t) := by
  refine ⟨rfl, fun h => ?_, fun t hjwt hne => ?_⟩
  · exact ⟨⟨.invalidParams,
      "No bearer token provided. Either pass bearerToken parameter or set REPORTS_JWT_TOKEN environment variable."⟩,
      by simp [getBearerToken, truthy_some_empty, h], rfl⟩
  · subst hjwt
    simp [getBearerToken, truthy, hne]

/-- Witness for C9: with no environment token the empty per-call token
yields the parameter error; with environment token "envtok" it resolves
to "envtok". -/
theorem C9_empty_token_witness :
    (∃ e, getBearerToken (some "") none = .error e ∧ e.code = .invalidParams) ∧
    getBearerToken (some "") (some "envtok") = .ok "envtok" :=
  ⟨(C9_empty_token_falls_back none).2.1 rfl,
   (C9_empty_token_falls_back (some "envtok")).2.2 "envtok" rfl (by decide)⟩

/-- Claim C10: the create-report payload is always exactly the four-field
object (title, platform, templateId, testers); an absent or
explicitly-empty platform becomes the empty string, an absent or
explicitly-empty templateId becomes the default template id, an absent
testers becomes the empty array, and a supplied empty string is
indistinguishable from an omitted field. -/
theorem C10_create_report_defaults (d : CreateReportArgsData) :
    buildReportPayload { d with platform := some "" } = buildReportPayload { d with platform := none } ∧
    buildReportPayload { d with templateId := some "" } = buildReportPayload { d with templateId := none } ∧
    buildReportPayload { d with title := some "" } = buildReportPayload { d with title := none } ∧
    (buildReportPayload { d with platform := none }).platform = "" ∧
    (buildReportPayload { d with templateId := none }).templateId = "67b1dac12c8d23272ad47cbd" ∧
    (buildReportPayload { d with testers := none }).testers = [] ∧
    (∀ tok jwt btok, getBearerToken tok jwt = .ok btok →
      createReportRequest tok jwt d =
        .ok { method := "POST", url := REPORTS_ENDPOINT
              body := .report (buildReportPayload d)
              authorization := "Bearer " ++ btok
              contentType := "application/json", timeout := 10000 }) := by
  refine ⟨?_, ?_, ?_, rfl, rfl, rfl, fun tok jwt btok htok => ?_⟩
  · simp [buildReportPayload, jsOrDefault]
  · simp [buildReportPayload, jsOrDefault]
  · simp [buildReportPayload, jsOrDefault]
  · unfold createReportRequest
    rw [htok]

/-- Witness for C10: the payload of a create-report call supplying only a
title, through a per-call token. -/
theorem C10_create_report_witness :
    createReportRequest (some "t") none ⟨some "T", none, none, none⟩ =
      .ok { method := "POST", url := REPORTS_ENDPOINT
            body := .report ⟨"T", "", "67b1dac12c8d23272ad47cbd", []⟩
            authorization := "Bearer " ++ "t"
            contentType := "application/json", timeout := 10000 } :=
  (C10_create_report_defaults ⟨some "T", none, none, none⟩).2.2.2.2.2.2 (some "t") none "t" rfl

theorem match_guard_invalid (tok jwt : Option String) (id : String) (msg : String)
    (k : String → Except McpError Request) (hco : checkObjectId id = false) :
    ∃ e, (match getBearerToken tok jwt with
      | .error e => (.error e : Except McpError Request)
      | .ok b =>
        if checkObjectId id = false then
          .error ⟨.invalidParams, msg⟩
        else k b) = .error e ∧ e.code = .invalidParams := by
  rcases bearer_cases tok jwt with ⟨e, he, hcode⟩ | ⟨b, hb⟩
  · exact ⟨e, by rw [he], hcode⟩
  · refine ⟨⟨.invalidParams, msg⟩, ?_, rfl⟩
    rw [hb]
    exact if_pos hco

/-- Claim C8: the cvssScore validator accepts a supplied value exactly
when it is a number in the closed interval from 0 to 10; in particular
-0.1 and 10.1 are rejected while 0.0 and 10.0 are accepted, and a
rejected score aborts a vulnerability update with the range parameter
error. -/
theorem C8_cvss_score_range (tok jwt : Option String) (vid btok : String) (d : VulnUpdateData)
    (hid : isValidObjectId vid = true) (htok : getBearerToken tok jwt = .ok btok) :
    (∀ x : JsScalar, cvssScoreOk x = true ↔ ∃ q : ℚ, x = .num q ∧ 0 ≤ q ∧ q ≤ 10) ∧
    cvssScoreOk (.num (-0.1 : ℚ)) = false ∧
    cvssScoreOk (.num (10.1 : ℚ)) = false ∧
    cvssScoreOk (.num 0) = true ∧
    cvssScoreOk (.num 10) = true ∧
    (∀ x, d.cvssScore = some x → cvssScoreOk x = false →
      updateVulnerabilityRequest tok jwt vid d =
        .error ⟨.invalidParams, "CVSS Score must be a number between 0.0 and 10.0"⟩) := by
  have hc : checkObjectId vid = true := checkObjectId_true hid
  have hcn : ¬ (checkObjectId vid = false) := by simp [hc]
  refine ⟨?_, ?_, ?_, by decide, by decide, fun x hx hbad => ?_⟩
  · intro x
    cases x with
    | num q => simp [cvssScoreOk]
    | str s => simp [cvssScoreOk]
    | other => simp [cvssScoreOk]
  · have hneg : ¬ ((0 : ℚ) ≤ -0.1) := by norm_num
    simp only [cvssScoreOk, decide_eq_false hneg, Bool.false_and]
  · have hgt : ¬ ((10.1 : ℚ) ≤ 10) := by norm_num
    simp only [cvssScoreOk, decide_eq_false hgt, Bool.and_false]
  · have hcond : cvssScoreCheck d.cvssScore = false := by
      rw [hx]
      exact hbad
    simp only [updateVulnerabilityRequest, htok]
    rw [if_neg hcn, if_pos hcond]

/-- Witness for C8: a vulnerability update whose cvssScore is not a number
is rejected with the range parameter error, at concrete inputs. -/
theorem C8_cvss_score_witness :
    updateVulnerabilityRequest (some "t") none "67b1dac12c8d23272ad47cbd"
      { cvssScore := some (.str "ten") } =
      .error ⟨.invalidParams, "CVSS Score must be a number between 0.0 and 10.0"⟩ :=
  (C8_cvss_score_range (some "t") none "67b1dac12c8d23272ad47cbd" "t"
    { cvssScore := some (.str "ten") } (by decide) rfl).2.2.2.2.2 (.str "ten") rfl rfl

/-- Claim C5: every operation that takes a report or vulnerability
identifier rejects an identifier failing the 24-hex-character pattern
with a parameter error before any request is built, whatever the token
situation; "67b1dac12c8d23272ad47cbd" passes the pattern while "123", the
empty string and a 25-character string fail it. -/
theorem C5_identifier_validation (tok jwt : Option String) (id : String)
    (udata : ReportUpdateData) (vdata : VulnUpdateData) (varg : VulnArg)
    (h : isValidObjectId id = false) :
    (∃ e, getReportRequest tok jwt id = .error e ∧ e.code = .invalidParams) ∧
    (∃ e, updateReportRequest tok jwt id udata = .error e ∧ e.code = .invalidParams) ∧
    (∃ e, getVulnerabilitiesRequest tok jwt id = .error e ∧ e.code = .invalidParams) ∧
    (∃ e, getVulnerabilityRequest tok jwt id = .error e ∧ e.code = .invalidParams) ∧
    (∃ e, updateVulnerabilityRequest tok jwt id vdata = .error e ∧ e.code = .invalidParams) ∧
    (∃ e, deleteVulnerabilityRequest tok jwt id = .error e ∧ e.code = .invalidParams) ∧
    (∃ e, createVulnerabilitiesRequest tok jwt id varg = .error e ∧ e.code = .invalidParams) ∧
    isValidObjectId "67b1dac12c8d23272ad47cbd" = true ∧
    isValidObjectId "123" = false ∧
    isValidObjectId "" = false ∧
    isValidObjectId "67b1dac12c8d23272ad47cbda" = false := by
  have hco : checkObjectId id = false := checkObjectId_false h
  exact ⟨match_guard_invalid tok jwt id _ _ hco,
    match_guard_invalid tok jwt id _ _ hco,
    match_guard_invalid tok jwt id _ _ hco,
    match_guard_invalid tok jwt id _ _ hco,
    match_guard_invalid tok jwt id _ _ hco,
    match_guard_invalid tok jwt id _ _ hco,
    match_guard_invalid tok jwt id _ _ hco,
    by decide, by decide, by decide, by decide⟩

/-- Witness for C5: the malformed identifier "123" is rejected by
get-report and delete-vulnerability at concrete inputs. -/
theorem C5_identifier_validation_witness :
    (∃ e, getReportRequest (some "t") none "123" = .error e ∧ e.code = .invalidParams) ∧
    (∃ e, deleteVulnerabilityRequest (some "t") none "123" = .error e ∧ e.code = .invalidParams) :=
  ⟨(C5_identifier_validation (some "t") none "123" {} {} (.arr []) (by decide)).1,
   (C5_identifier_validation (some "t") none "123" {} {} (.arr []) (by decide)).2.2.2.2.2.1⟩

/-- Claim C2 counterexample: the create-report operation (a write) issues
its request with a 10-second timeout, not the claimed 15 seconds. -/
theorem C2_create_report_timeout_counterexample :
    ∃ r, createReportRequest (some "t") none ⟨some "T", none, none, none⟩ = .ok r ∧
      r.timeout = 10000 ∧ r.timeout ≠ 15000 :=
  ⟨_, rfl, rfl, by decide⟩

/-- Claim C2 (amended: create_report also uses the 10-second timeout):
every read and delete operation and create_report issue their request
with a 10-second timeout, while update_report, update_vulnerability and
create_vulnerabilities use 15 seconds. -/
theorem C2_timeouts (tok jwt : Option String) (id : String)
    (cdata : CreateReportArgsData) (udata : ReportUpdateData)
    (vdata : VulnUpdateData) (varg : VulnArg) :
    (∀ r, getAllReportsRequest tok jwt = .ok r → r.timeout = 10000) ∧
    (∀ r, getReportRequest tok jwt id = .ok r → r.timeout = 10000) ∧
    (∀ r, createReportRequest tok jwt cdata = .ok r → r.timeout = 10000) ∧
    (∀ r, getVulnerabilitiesRequest tok jwt id = .ok r → r.timeout = 10000) ∧
    (∀ r, getVulnerabilityRequest tok jwt id = .ok r → r.timeout = 10000) ∧
    (∀ r, deleteVulnerabilityRequest tok jwt id = .ok r → r.timeout = 10000) ∧
    (∀ r, updateReportRequest tok jwt id udata = .ok r → r.timeout = 15000) ∧
    (∀ r, updateVulnerabilityRequest tok jwt id vdata = .ok r → r.timeout = 15000) ∧
    (∀ r, createVulnerabilitiesRequest tok jwt id varg = .ok r → r.timeout = 15000) := by
  refine ⟨?_, ?_, ?_, ?_, ?_, ?_, ?_, ?_, ?_⟩ <;>
  · intro r h
    simp only [getAllReportsRequest, getReportRequest, createReportRequest,
      getVulnerabilitiesRequest, getVulnerabilityRequest, deleteVulnerabilityRequest,
      updateReportRequest, updateVulnerabilityRequest, createVulnerabilitiesRequest] at h
    repeat' split at h
    all_goals (cases h <;> rfl)

/-- Witness for C2 (amended): each operation evaluated at a concrete valid
input carries the stated timeout. -/
theorem C2_timeouts_witness :
    (∃ r, getAllReportsRequest (some "t") none = .ok r ∧ r.timeout = 10000) ∧
    (∃ r, getReportRequest (some "t") none "67b1dac12c8d23272ad47cbd" = .ok r ∧
      r.timeout = 10000) ∧
    (∃ r, createReportRequest (some "t") none ⟨some "T", none, none, none⟩ = .ok r ∧
      r.timeout = 10000) ∧
    (∃ r, getVulnerabilitiesRequest (some "t") none "67b1dac12c8d23272ad47cbd" = .ok r ∧
      r.timeout = 10000) ∧
    (∃ r, getVulnerabilityRequest (some "t") none "67b1dac12c8d23272ad47cbd" = .ok r ∧
      r.timeout = 10000) ∧
    (∃ r, deleteVulnerabilityRequest (some "t") none "67b1dac12c8d23272ad47cbd" = .ok r ∧
      r.timeout = 10000) ∧
    (∃ r, updateReportRequest (some "t") none "67b1dac12c8d23272ad47cbd" {} = .ok r ∧
      r.timeout = 15000) ∧
    (∃ r, updateVulnerabilityRequest (some "t") none "67b1dac12c8d23272ad47cbd" {} = .ok r ∧
      r.timeout = 15000) ∧
    (∃ r, createVulnerabilitiesRequest (some "t") none "67b1dac12c8d23272ad47cbd"
        (.arr [⟨some "T", some "D", none, none, none, none, none, none⟩]) = .ok r ∧
      r.timeout = 15000) :=
  ⟨⟨_, rfl, (C2_timeouts (some "t") none "67b1dac12c8d23272ad47cbd" ⟨some "T", none, none, none⟩
      {} {} (.arr [⟨some "T", some "D", none, none, none, none, none, none⟩])).1 _ rfl⟩,
   ⟨_, rfl, (C2_timeouts (some "t") none "67b1dac12c8d23272ad47cbd" ⟨some "T", none, none, none⟩
      {} {} (.arr [⟨some "T", some "D", none, none, none, none, none, none⟩])).2.1 _ rfl⟩,
   ⟨_, rfl, (C2_timeouts (some "t") none "67b1dac12c8d23272ad47cbd" ⟨some "T", none, none, none⟩
      {} {} (.arr [⟨some "T", some "D", none, none, none, none, none, none⟩])).2.2.1 _ rfl⟩,
   ⟨_, rfl, (C2_timeouts (some "t") none "67b1dac12c8d23272ad47cbd" ⟨some "T", none, none, none⟩
      {} {} (.arr [⟨some "T", some "D", none, none, none, none, none, none⟩])).2.2.2.1 _ rfl⟩,
   ⟨_, rfl, (C2_timeouts (some "t") none "67b1dac12c8d23272ad47cbd" ⟨some "T", none, none, none⟩
      {} {} (.arr [⟨some "T", some "D", none, none, none, none, none, none⟩])).2.2.2.2.1 _ rfl⟩,
   ⟨_, rfl, (C2_timeouts (some "t") none "67b1dac12c8d23272ad47cbd" ⟨some "T", none, none, none⟩
      {} {} (.arr [⟨some "T", some "D", none, none, none, none, none, none⟩])).2.2.2.2.2.1 _ rfl⟩,
   ⟨_, rfl, (C2_timeouts (some "t") none "67b1dac12c8d23272ad47cbd" ⟨some "T", none, none, none⟩
      {} {} (.arr [⟨some "T", some "D", none, none, none, none, none, none⟩])).2.2.2.2.2.2.1 _ rfl⟩,
   ⟨_, rfl, (C2_timeouts (some "t") none "67b1dac12c8d23272ad47cbd" ⟨some "T", none, none, none⟩
      {} {} (.arr [⟨some "T", some "D", none, none, none, none, none, none⟩])).2.2.2.2.2.2.2.1 _ rfl⟩,
   ⟨_, rfl, (C2_timeouts (some "t") none "67b1dac12c8d23272ad47cbd" ⟨some "T", none, none, none⟩
      {} {} (.arr [⟨some "T", some "D", none, none, none, none, none, none⟩])).2.2.2.2.2.2.2.2 _ rfl⟩⟩

/-- Claim C6: update_report with a valid report id but no updatable field
raises the nothing-to-update parameter error without building a request,
and with only status "Closed" present the outgoing patch body is exactly
the one-field object with status "Closed". -/
theorem C6_update_report_patch (jwt tokOpt : Option String) (rid btok : String)
    (hid : isValidObjectId rid = true)
    (htok : getBearerToken tokOpt jwt = .ok btok) :
    handleUpdateReport jwt ⟨tokOpt, some rid, none, none, none, none, none, none, none, none⟩ =
      .error ⟨.invalidParams, "At least one field must be provided to update"⟩ ∧
    handleUpdateReport jwt ⟨tokOpt, some rid, none, none, none, none, none, none, none, some "Closed"⟩ =
      .ok { method := "PUT", url := REPORTS_ENDPOINT ++ "/" ++ rid
            body := .reportUpdate ⟨none, none, none, none, none, some "Closed", none⟩
            authorization := "Bearer " ++ btok
            contentType := "application/json", timeout := 15000 } := by
  have hne : rid ≠ "" := valid_ne_empty hid
  have hc : checkObjectId rid = true := checkObjectId_true hid
  constructor
  · simp [handleUpdateReport, truthy, hne, buildReportUpdateData,
      ReportUpdateData.isEmptyUpdate]
  · simp [handleUpdateReport, truthy, hne, buildReportUpdateData,
      ReportUpdateData.isEmptyUpdate, updateReportRequest, htok, hc, validStatuses]

/-- Witness for C6: the two update_report behaviours at a concrete valid
report id and per-call token. -/
theorem C6_update_report_witness :
    handleUpdateReport none
      ⟨some "tok", some "67b1dac12c8d23272ad47cbd", none, none, none, none, none, none, none, none⟩ =
      .error ⟨.invalidParams, "At least one field must be provided to update"⟩ ∧
    handleUpdateReport none
      ⟨some "tok", some "67b1dac12c8d23272ad47cbd", none, none, none, none, none, none, none, some "Closed"⟩ =
      .ok { method := "PUT", url := REPORTS_ENDPOINT ++ "/" ++ "67b1dac12c8d23272ad47cbd"
            body := .reportUpdate ⟨none, none, none, none, none, some "Closed", none⟩
            authorization := "Bearer " ++ "tok"
            contentType := "application/json", timeout := 15000 } :=
  ⟨(C6_update_report_patch none (some "tok") "67b1dac12c8d23272ad47cbd" "tok" (by decide) rfl).1,
   (C6_update_report_patch none (some "tok") "67b1dac12c8d23272ad47cbd" "tok" (by decide) rfl).2⟩

/-- Claim C1 counterexample: supplying a single vulnerability object
instead of an array to the create_vulnerabilities tool is rejected by the
router's Array.isArray guard with a parameter error; the call does not
proceed to per-element validation and dispatch. -/
theorem C1_single_object_counterexample :
    handleCreateVulnerabilities (some "jwt")
      ⟨none, some "67b1dac12c8d23272ad47cbd",
        some (.single ⟨some "T", some "D", none, none, none, none, none, none⟩)⟩ =
      .error ⟨.invalidParams, "At least one vulnerability is required"⟩ := rfl

/-- Claim C1 (amended: the coercion exists only inside the
createVulnerabilities function): at the function level a single
vulnerability object is coerced to a one-element list and treated exactly
like the singleton array, but the tool router rejects any non-array
vulnerabilities argument with a parameter error before that function
runs, so the coercion is unreachable through the tool call. -/
theorem C1_single_object_coercion (tok jwt : Option String) (reportId : String)
    (v : VulnInput) :
    createVulnerabilitiesRequest tok jwt reportId (.single v) =
      createVulnerabilitiesRequest tok jwt reportId (.arr [v]) ∧
    (∀ jwtEnv btok rid, ∃ e,
      handleCreateVulnerabilities jwtEnv ⟨btok, rid, some (.single v)⟩ = .error e ∧
        e.code = .invalidParams) := by
  refine ⟨rfl, fun jwtEnv btok rid => ?_⟩
  by_cases htr : truthy rid = false
  · exact ⟨⟨.invalidParams, "Report ID is required"⟩,
      by simp [handleCreateVulnerabilities, htr], rfl⟩
  · exact ⟨⟨.invalidParams, "At least one vulnerability is required"⟩,
      by simp [handleCreateVulnerabilities, htr], rfl⟩

theorem vfv_error_code {v : VulnInput} {e : McpError}
    (h : validateAndFormatVuln v = .error e) : e.code = .invalidParams := by
  simp only [validateAndFormatVuln] at h
  by_cases h1 : truthy v.title = false
  · rw [if_pos h1] at h
    cases h
    rfl
  · rw [if_neg h1] at h
    by_cases h2 : truthy v.description = false
    · rw [if_pos h2] at h
      cases h
      rfl
    · rw [if_neg h2] at h
      by_cases h3 : cvssScoreCheck (formatVulnFields v).cvssScore = false
      · rw [if_pos h3] at h
        cases h
        rfl
      · rw [if_neg h3] at h
        by_cases h4 : severityCheck (formatVulnFields v).severity = false
        · rw [if_pos h4] at h
          cases h
          rfl
        · rw [if_neg h4] at h
          by_cases h5 : cvssCheck (formatVulnFields v).cvss = false
          · rw [if_pos h5] at h
            cases h
            rfl
          · rw [if_neg h5] at h
            cases h

theorem vfv_ok_title_desc {v w : VulnInput}
    (h : validateAndFormatVuln v = .ok w) :
    truthy v.title = true ∧ truthy v.description = true := by
  simp only [validateAndFormatVuln] at h
  by_cases h1 : truthy v.title = false
  · rw [if_pos h1] at h
    cases h
  · rw [if_neg h1] at h
    by_cases h2 : truthy v.description = false
    · rw [if_pos h2] at h
      cases h
    · exact ⟨by simpa using h1, by simpa using h2⟩

theorem vfvs_error_code {l : List VulnInput} {e : McpError}
    (h : validateAndFormatVulns l = .error e) : e.code = .invalidParams := by
  induction l with
  | nil => simp [validateAndFormatVulns] at h
  | cons a rest ih =>
    cases hv : validateAndFormatVuln a with
    | error e2 =>
      simp only [validateAndFormatVulns, hv] at h
      cases h
      exact vfv_error_code hv
    | ok w =>
      simp only [validateAndFormatVulns, hv] at h
      cases hr : validateAndFormatVulns rest with
      | error e3 =>
        simp only [hr] at h
        cases h
        exact ih hr
      | ok ws =>
        simp only [hr] at h
        cases h

theorem vfvs_bad_element {l : List VulnInput}
    (h : ∃ v ∈ l, truthy v.title = false ∨ truthy v.description = false) :
    ∃ e, validateAndFormatVulns l = .error e := by
  induction l with
  | nil =>
    rcases h with ⟨v, hv, _⟩
    exact absurd hv (List.not_mem_nil v)
  | cons a rest ih =>
    cases hv : validateAndFormatVuln a with
    | error e2 => exact ⟨e2, by simp only [validateAndFormatVulns, hv]⟩
    | ok w =>
      have hrest : ∃ v ∈ rest, truthy v.title = false ∨ truthy v.description = false := by
        rcases h with ⟨v, hv2, hbad⟩
        rcases List.mem_cons.mp hv2 with rfl | hmem
        · rcases vfv_ok_title_desc hv with ⟨ht, hd⟩
          rcases hbad with hb | hb
          · rw [ht] at hb
            cases hb
          · rw [hd] at hb
            cases hb
        · exact ⟨v, hmem, hbad⟩
      rcases ih hrest with ⟨e3, he3⟩
      exact ⟨e3, by simp only [validateAndFormatVulns, hv, he3]⟩

/-- Claim C3 counterexample: the abort error for a batch element lacking a
description is the same fixed message whether the offending element is the
second of two or the first of two — the parameter error names the missing
field but not which element of the batch is the offending one. -/
theorem C3_error_counterexample :
    createVulnerabilitiesRequest (some "t") none "67b1dac12c8d23272ad47cbd"
      (.arr [⟨some "T", some "D", none, none, none, none, none, none⟩,
             ⟨some "T2", none, none, none, none, none, none, none⟩]) =
      .error ⟨.invalidParams, "Each vulnerability must have a description (HTML string)"⟩ ∧
    createVulnerabilitiesRequest (some "t") none "67b1dac12c8d23272ad47cbd"
      (.arr [⟨some "A", none, none, none, none, none, none, none⟩,
             ⟨some "B", some "DB", none, none, none, none, none, none⟩]) =
      .error ⟨.invalidParams, "Each vulnerability must have a description (HTML string)"⟩ :=
  ⟨rfl, rfl⟩

/-- Claim C3 (amended: the parameter error names the missing field but not
the offending element): when some element of the batch lacks a truthy
title or description, the whole create_vulnerabilities call aborts with a
parameter error and no request is built. -/
theorem C3_invalid_element_aborts (tok jwt : Option String) (reportId : String)
    (vulns : List VulnInput)
    (h : ∃ v ∈ vulns, truthy v.title = false ∨ truthy v.description = false) :
    ∃ e, createVulnerabilitiesRequest tok jwt reportId (.arr vulns) = .error e ∧
      e.code = .invalidParams := by
  rcases bearer_cases tok jwt with ⟨e, he, hcode⟩ | ⟨b, hb⟩
  · exact ⟨e, by simp only [createVulnerabilitiesRequest, he], hcode⟩
  · by_cases hco : checkObjectId reportId = false
    · refine ⟨⟨.invalidParams,
        "Invalid reportId format. Must be a valid MongoDB ObjectId (24 characters)"⟩, ?_, rfl⟩
      simp only [createVulnerabilitiesRequest, hb]
      rw [if_pos hco]
    · rcases vfvs_bad_element h with ⟨e3, he3⟩
      refine ⟨e3, ?_, vfvs_error_code he3⟩
      simp only [createVulnerabilitiesRequest, hb]
      rw [if_neg hco]
      simp only [VulnArg.toList, he3]

/-- Witness for C3 (amended): a one-element batch lacking a description
aborts with a parameter error at concrete inputs. -/
theorem C3_invalid_element_witness :
    ∃ e, createVulnerabilitiesRequest (some "t") none "67b1dac12c8d23272ad47cbd"
        (.arr [⟨some "T", none, none, none, none, none, none, none⟩]) = .error e ∧
      e.code = .invalidParams :=
  C3_invalid_element_aborts (some "t") none "67b1dac12c8d23272ad47cbd"
    [⟨some "T", none, none, none, none, none, none, none⟩]
    ⟨⟨some "T", none, none, none, none, none, none, none⟩, by simp, Or.inr rfl⟩

end ReportsServer
